import Mathlib

/-!
Verification of the Stripe OPAL fetch provider
(`src/opal_fetcher_stripe/provider.py`).

Shallow embedding conventions:
* Python dicts are insertion-ordered association lists over `String` keys;
  assignment `d[k] = v` is `upsert` (replace in place if the key exists,
  append otherwise), matching CPython dict semantics.
* Loosely-typed JSON-ish values are the inductive `Val`.
* A raw Stripe record is embedded as the total structure `Record`; fields the
  Python record would lack are `""`/`[]`, which is sound because each branch
  of `_process_` only reads the fields that kind of record carries.
* Python exceptions are the `PyErr` type and fallible code returns
  `Except PyErr _`.  In `customers[customer][record_type].extend(data)`,
  a missing `record_type` key raises `KeyError`; a present one holds a dict
  (or string), neither of which has an `extend` attribute, so the attribute
  lookup raises `AttributeError`.
-/

/-- Python exceptions that the aggregation / init code can raise. -/
inductive PyErr where
  | keyError
  | attributeError
deriving DecidableEq, Repr

/-- A loosely-typed value: string, integer, or dict (insertion-ordered). -/
inductive Val where
  | s (v : String)
  | i (v : Int)
  | obj (fields : List (String × Val))

/-- `d[k]` lookup on an insertion-ordered dict. -/
def lookupD {β : Type} : List (String × β) → String → Option β
  | [], _ => none
  | (k', v') :: rest, k => if k' = k then some v' else lookupD rest k

/-- `d[k] = v` on an insertion-ordered dict: replace in place, else append. -/
def upsert {β : Type} : List (String × β) → String → β → List (String × β)
  | [], k, v => [(k, v)]
  | (k', v') :: rest, k, v =>
      if k' = k then (k, v) :: rest else (k', v') :: upsert rest k v

/-- Python's `needle in haystack` on strings: substring containment
(case-sensitive, as the `in` operator is). -/
def strContains (haystack needle : String) : Bool :=
  go needle.data haystack.data
where
  go (needle : List Char) : List Char → Bool
    | [] => needle.isEmpty
    | c :: rest => needle.isPrefixOf (c :: rest) || go needle rest

/-- One entry of an invoice's `lines.data` collection (the fields
`parse_invoice_lines` reads). -/
structure LineItem where
  product : String
  type : String
  amount : Int
  description : String
deriving DecidableEq, Repr

/-- A raw Stripe record, restricted to the fields `_process_` reads. -/
structure Record where
  object : String
  id : String
  email : String
  customer : String
  status : String
  lines : List LineItem
deriving DecidableEq, Repr

/-- Value stored under one customer key of `processed_records`:
a dict from sub-collection name (or `"id"`) to a `Val`. -/
abbrev Entry := List (String × Val)

/-- The accumulating `processed_records` dict. -/
abbrev Customers := List (String × Entry)

/-- `StripeFetchProvider.parse_invoice_lines`: fold the invoice lines into a
dict keyed by `line["price"]["product"]`. -/
def parse_invoice_lines (lines : List LineItem) : List (String × Val) :=
  lines.foldl
    (fun result line =>
      upsert result line.product
        (Val.obj [("type", Val.s line.type), ("amount", Val.i line.amount),
                  ("description", Val.s line.description)]))
    []

/-- `StripeFetchProvider.update_customer_record`.  When the customer key is
absent, a fresh entry `{record_type: data}` is stored.  When it is present,
the code runs `customers[customer][record_type].extend(data)`: indexing a
missing `record_type` raises `KeyError`, and otherwise the stored value (a
dict or string) has no `extend` attribute, raising `AttributeError`. -/
def update_customer_record (customers : Customers) (record : Record)
    (record_type : String) (data : Option (List (String × Val))) :
    Except PyErr Customers :=
  let customer := record.customer
  let data' : List (String × Val) :=
    match data with
    | none => [(record.id, Val.s record.status)]
    | some d => d
  match lookupD customers customer with
  | some entry =>
      match lookupD entry record_type with
      | none => .error PyErr.keyError
      | some _ => .error PyErr.attributeError
  | none => .ok (upsert customers customer [(record_type, Val.obj data')])

/-- One iteration of the loop in `StripeFetchProvider._process_`:
dispatch on `record["object"]` by (case-sensitive) substring containment,
apply the per-kind status filter, and update `processed_records`. -/
def processStep (acc : Customers) (r : Record) : Except PyErr Customers :=
  if strContains r.object "customer" then
    .ok (upsert acc r.email [("id", Val.s r.id)])
  else if strContains r.object "invoice" then
    if ¬ strContains r.status "paid" then .ok acc
    else update_customer_record acc r "products" (some (parse_invoice_lines r.lines))
  else if strContains r.object "subscription" then
    if ¬ strContains r.status "active" then .ok acc
    else update_customer_record acc r "subscriptions" none
  else if strContains r.object "payment_intent" then
    if ¬ strContains r.status "succeeded" then .ok acc
    else update_customer_record acc r "payments" none
  else
    .ok acc

/-- The loop of `_process_` starting from an accumulated dict. -/
def processList (acc : Customers) : List Record → Except PyErr Customers
  | [] => .ok acc
  | r :: rs =>
      match processStep acc r with
      | .ok acc' => processList acc' rs
      | .error e => .error e

/-- `StripeFetchProvider._process_` on a list of records. -/
def processRecords (records : List Record) : Except PyErr Customers :=
  processList [] records

/-- ASCII lowercase of one character (spec-side notion used to state
case-insensitive containment). -/
def lowerChar (c : Char) : Char :=
  if 'A' ≤ c ∧ c ≤ 'Z' then Char.ofNat (c.toNat + 32) else c

/-- Case-insensitive substring containment (the test the spec describes;
to be compared with `strContains`, the test the code performs). -/
def strContainsCI (haystack needle : String) : Bool :=
  strContains ⟨haystack.data.map lowerChar⟩ ⟨needle.data.map lowerChar⟩

/-! ### The retry policy (`RETRY_CONFIG` interpreted by tenacity)

`RETRY_CONFIG = {wait: wait_random_exponential(), stop: stop_after_attempt(10),
retry: retry_unless_exception_type(StripeError), reraise: True}`.

The wrapped operation is modelled as a function from the attempt number
(starting at 1) to its outcome.  `retry_unless_exception_type(StripeError)`
retries exactly when the raised error is NOT a `StripeError`;
`stop_after_attempt(10)` bounds the total number of invocations at 10;
`reraise=True` re-raises the last underlying error unchanged.
The randomized waits only delay attempts and are irrelevant to the result. -/

/-- Errors an operation under the retry policy can raise.
`AuthenticationError`, `APIConnectionError` and generic `StripeError`s all
belong to the `StripeError` family; `nonStripe` stands for any other
exception. -/
inductive RemoteErr where
  | stripeGeneric
  | authentication
  | apiConnection
  | nonStripe (n : Nat)
deriving DecidableEq, Repr

/-- `isinstance(e, StripeError)`. -/
def RemoteErr.isStripeError : RemoteErr → Bool
  | .nonStripe _ => false
  | _ => true

/-- Outcome of one invocation of the wrapped operation. -/
inductive CallOutcome (α : Type) where
  | ok (a : α)
  | raise (e : RemoteErr)
deriving DecidableEq, Repr

/-- The tenacity retry loop: `attempt` is the current attempt number and
`fuel` the number of further attempts `stop` still allows.  Returns the
final result together with the number of invocations performed. -/
def retryGo {α : Type} (op : Nat → CallOutcome α) (retryPred : RemoteErr → Bool) :
    Nat → Nat → Except RemoteErr α × Nat
  | attempt, 0 =>
    match op attempt with
    | .ok a => (.ok a, attempt)
    | .raise e => (.error e, attempt)
  | attempt, fuel + 1 =>
    match op attempt with
    | .ok a => (.ok a, attempt)
    | .raise e =>
      if retryPred e then retryGo op retryPred (attempt + 1) fuel
      else (.error e, attempt)

/-- `execute` under `RETRY_CONFIG`: at most 10 attempts, retried unless the
error is a `StripeError`, last error re-raised unchanged. -/
def retryExecute {α : Type} (op : Nat → CallOutcome α) : Except RemoteErr α × Nat :=
  retryGo op (fun e => ! e.isStripeError) 1 9

/-! ### The fetch boundary (`StripeFetchProvider._fetch_`)

The body resolves the resource with `getattr` (raising `AttributeError` for
an unknown resource name) and awaits the remote `list` call (which may raise
`AuthenticationError`, `APIConnectionError`, or any other exception).  The
outcome of that body is modelled abstractly; the surrounding handlers each
log a diagnostic and fall through to `return result` with `result = []`. -/

/-- Exceptions the fetch body can raise. -/
inductive FetchExn where
  | attributeError
  | authenticationError
  | apiConnectionError
  | other (msg : String)
deriving DecidableEq, Repr

/-- Abstract outcome of the try-block body (resource lookup plus remote
list call plus `response["data"]`). -/
inductive FetchOutcome where
  | success (data : List Record)
  | raiseAttributeError
  | raiseAuthenticationError
  | raiseAPIConnectionError
  | raiseOther (msg : String)
deriving DecidableEq, Repr

/-- What the try-block body does for each outcome. -/
def fetchBody : FetchOutcome → Except FetchExn (List Record)
  | .success d => .ok d
  | .raiseAttributeError => .error .attributeError
  | .raiseAuthenticationError => .error .authenticationError
  | .raiseAPIConnectionError => .error .apiConnectionError
  | .raiseOther m => .error (.other m)

/-- `StripeFetchProvider._fetch_`: the body wrapped in its four handlers.
Each handler logs and leaves `result = []`, so the method returns normally. -/
def fetchModel (o : FetchOutcome) : Except FetchExn (List Record) :=
  match fetchBody o with
  | .ok d => .ok d
  | .error .attributeError => .ok []
  | .error .authenticationError => .ok []
  | .error .apiConnectionError => .ok []
  | .error (.other _) => .ok []

/-! ### Provider construction (`StripeFetchProvider.__init__`)

`StripeConnectionParams` declares `api_key: str = Field(None)` — pydantic v1
treats a `None` default as making the field optional, so a params object with
no `api_key` validates and carries `api_key = None`.  `__init__` then builds
`connection_params = ...dict(exclude_none=True)` (dropping every `None`
field) and immediately evaluates `connection_params["api_key"]`, which
raises `KeyError` when the key was dropped. -/

/-- `StripeConnectionParams` with pydantic defaults; `none` stands for a
field that is `None` (absent from the `exclude_none` dict). -/
structure StripeConnectionParams where
  api_key : Option String := none
  max_network_retries : Option Nat := some 2
  log_level : Option String := some "info"
  enable_telemetry : Option Bool := some true
deriving DecidableEq, Repr

/-- The process-wide stripe client settings `__init__` mutates. -/
structure StripeGlobals where
  apiKey : String
  maxNetworkRetries : Option Nat
  enableTelemetry : Option Bool
  logLevel : Option String
deriving DecidableEq, Repr

/-- The body of `StripeFetchProvider.__init__` past the `event.config is
None` guard: each `connection_params[k]` lookup raises `KeyError` when the
field was `None`; the three trailing assignments are guarded by Python
truthiness. -/
def providerInit (cp : StripeConnectionParams) : Except PyErr StripeGlobals :=
  match cp.api_key with
  | none => .error PyErr.keyError
  | some key =>
    match cp.max_network_retries with
    | none => .error PyErr.keyError
    | some mnr =>
      match cp.enable_telemetry with
      | none => .error PyErr.keyError
      | some tel =>
        match cp.log_level with
        | none => .error PyErr.keyError
        | some ll =>
          .ok { apiKey := key,
                maxNetworkRetries := if mnr ≠ 0 then some mnr else none,
                enableTelemetry := if tel then some tel else none,
                logLevel := if ll ≠ "" then some ll else none }

/-! ### Concrete fixture records (absent fields embedded as `""` / `[]`) -/

/-- The account record of the end-to-end scenario. -/
def acctRec : Record :=
  ⟨"customer", "cus_1", "a@x.com", "", "", []⟩

/-- A second account record for the same email with a different id. -/
def acctRec2 : Record :=
  ⟨"customer", "cus_9", "a@x.com", "", "", []⟩

/-- The paid invoice of the end-to-end scenario. -/
def invRec : Record :=
  ⟨"invoice", "", "", "cus_1", "paid", [⟨"prod_1", "invoiceitem", 500, "Widget"⟩]⟩

/-- The active subscription of the end-to-end scenario. -/
def subRec : Record :=
  ⟨"subscription", "sub_1", "", "cus_1", "active", []⟩

/-- A second active subscription for the same customer. -/
def subRec2 : Record :=
  ⟨"subscription", "sub_2", "", "cus_1", "active", []⟩

/-- The three-record input of the end-to-end scenario. -/
def scenarioRecords : List Record := [acctRec, invRec, subRec]

/-- An account record whose `object` differs from `"customer"` only in case. -/
def upperAcctRec : Record :=
  ⟨"Customer", "cus_1", "a@x.com", "", "", []⟩

/-- A record whose `object` contains both `"customer"` and `"invoice"`. -/
def priorityRec : Record :=
  ⟨"customer_invoice", "cus_3", "b@x.com", "cus_3", "paid", []⟩

/-- A record of an unrecognized kind. -/
def chargeRefundRec : Record :=
  ⟨"charge.refund", "re_1", "", "cus_1", "succeeded", []⟩

/-- An invoice that fails the `"paid"` status filter. -/
def openInvRec : Record :=
  ⟨"invoice", "", "", "cus_1", "open", [⟨"prod_2", "invoiceitem", 700, "Gadget"⟩]⟩

/-- A subscription that fails the `"active"` status filter. -/
def canceledSubRec : Record :=
  ⟨"subscription", "sub_3", "", "cus_1", "canceled", []⟩

/-- A payment that fails the `"succeeded"` status filter. -/
def failedPayRec : Record :=
  ⟨"payment_intent", "pi_1", "", "cus_1", "failed", []⟩

/-- An invoice whose status contains `"paid"` without being `"paid"`. -/
def unpaidInvRec : Record :=
  ⟨"invoice", "", "", "cus_7", "unpaid", [⟨"prod_1", "invoiceitem", 500, "Widget"⟩]⟩

/-- A subscription whose status contains `"active"` without being `"active"`. -/
def inactiveSubRec : Record :=
  ⟨"subscription", "sub_9", "", "cus_8", "inactive", []⟩

/-- A payment whose status strictly contains `"succeeded"`. -/
def oddPayRec : Record :=
  ⟨"payment_intent", "pi_9", "", "cus_9", "not_succeeded", []⟩

/-- The aggregate produced by `[subRec]` alone. -/
def subAcc : Customers :=
  [("cus_1", [("subscriptions", Val.obj [("sub_1", Val.s "active")])])]

/-- The entry stored under `"cus_1"` in `subAcc`. -/
def subEntry : Entry :=
  [("subscriptions", Val.obj [("sub_1", Val.s "active")])]

/-! ### Helper lemmas -/

/-- A record that the dispatch routes to `update_customer_record`:
not an account record, and of one of the three remaining kinds with its
status filter passed (respecting the `elif` priority order). -/
def qualifiesExisting (r : Record) : Bool :=
  !(strContains r.object "customer") &&
  ((strContains r.object "invoice" && strContains r.status "paid") ||
   (!(strContains r.object "invoice") && strContains r.object "subscription" &&
    strContains r.status "active") ||
   (!(strContains r.object "invoice") && !(strContains r.object "subscription") &&
    strContains r.object "payment_intent" && strContains r.status "succeeded"))

lemma processList_append (pre rest : List Record) (acc acc2 : Customers)
    (h : processList acc pre = .ok acc2) :
    processList acc (pre ++ rest) = processList acc2 rest := by
  induction pre generalizing acc with
  | nil =>
      simp only [processList] at h
      cases h
      rfl
  | cons r rs ih =>
      simp only [processList, List.cons_append] at h ⊢
      cases hstep : processStep acc r with
      | ok acc' => rw [hstep] at h; exact ih acc' h
      | error e => rw [hstep] at h; exact absurd h (by simp)

lemma processList_error (pre rest : List Record) (acc : Customers) (e : PyErr)
    (h : processList acc pre = .error e) :
    processList acc (pre ++ rest) = .error e := by
  induction pre generalizing acc with
  | nil => simp [processList] at h
  | cons r rs ih =>
      simp only [processList, List.cons_append] at h ⊢
      cases hstep : processStep acc r with
      | ok acc' => rw [hstep] at h; exact ih acc' h
      | error e' => rw [hstep] at h; exact h

lemma update_customer_record_present (customers : Customers) (record : Record)
    (rt : String) (data : Option (List (String × Val))) (entry : Entry)
    (h : lookupD customers record.customer = some entry) :
    update_customer_record customers record rt data = .error PyErr.keyError ∨
    update_customer_record customers record rt data = .error PyErr.attributeError := by
  simp only [update_customer_record, h]
  cases lookupD entry rt with
  | none => left; rfl
  | some v => right; rfl

lemma step_present_error (acc : Customers) (r : Record) (entry : Entry)
    (hq : qualifiesExisting r = true)
    (h : lookupD acc r.customer = some entry) :
    processStep acc r = .error PyErr.keyError ∨
    processStep acc r = .error PyErr.attributeError := by
  simp only [qualifiesExisting, Bool.and_eq_true, Bool.or_eq_true,
    Bool.not_eq_true'] at hq
  obtain ⟨hc, hq⟩ := hq
  rcases hq with (⟨hi, hp⟩ | ⟨⟨hni, hs⟩, ha⟩) | ⟨⟨⟨hni, hns⟩, hpi⟩, hsu⟩
  · simpa only [processStep, hc, hi, hp, Bool.false_eq_true, if_false, if_true,
      not_true, ite_false, ite_true, Bool.not_true, Bool.not_false] using
      update_customer_record_present acc r "products"
        (some (parse_invoice_lines r.lines)) entry h
  · simpa only [processStep, hc, hni, hs, ha, Bool.false_eq_true, if_false,
      if_true, not_true, ite_false, ite_true, Bool.not_true, Bool.not_false] using
      update_customer_record_present acc r "subscriptions" none entry h
  · simpa only [processStep, hc, hni, hns, hpi, hsu, Bool.false_eq_true,
      if_false, if_true, not_true, ite_false, ite_true, Bool.not_true,
      Bool.not_false] using
      update_customer_record_present acc r "payments" none entry h

lemma keys_upsert {β : Type} (l : List (String × β)) (k : String) (v : β) :
    (upsert l k v).map Prod.fst =
      if k ∈ l.map Prod.fst then l.map Prod.fst
      else l.map Prod.fst ++ [k] := by
  induction l with
  | nil => simp [upsert]
  | cons p rest ih =>
      obtain ⟨k', v'⟩ := p
      by_cases hk : k' = k
      · subst hk
        simp [upsert]
      · simp only [upsert, if_neg hk, List.map_cons, ih]
        by_cases hmem : k ∈ rest.map Prod.fst
        · rw [if_pos hmem, if_pos (List.mem_cons_of_mem _ hmem)]
        · rw [if_neg hmem, if_neg (by
            intro hcons
            rcases List.mem_cons.mp hcons with h' | h'
            · exact hk h'.symm
            · exact hmem h')]
          simp

lemma nodup_keys_upsert {β : Type} (l : List (String × β)) (k : String) (v : β)
    (h : (l.map Prod.fst).Nodup) : ((upsert l k v).map Prod.fst).Nodup := by
  rw [keys_upsert]
  by_cases hmem : k ∈ l.map Prod.fst
  · rwa [if_pos hmem]
  · rw [if_neg hmem]
    simp [List.nodup_append, h, hmem]

lemma step_nodup (acc acc2 : Customers) (r : Record)
    (h : processStep acc r = .ok acc2)
    (hn : (acc.map Prod.fst).Nodup) : (acc2.map Prod.fst).Nodup := by
  simp only [processStep] at h
  split at h
  · cases h; exact nodup_keys_upsert _ _ _ hn
  · split at h
    · split at h
      · cases h; exact hn
      · simp only [update_customer_record] at h
        split at h
        · split at h <;> exact absurd h (by simp)
        · cases h; exact nodup_keys_upsert _ _ _ hn
    · split at h
      · split at h
        · cases h; exact hn
        · simp only [update_customer_record] at h
          split at h
          · split at h <;> exact absurd h (by simp)
          · cases h; exact nodup_keys_upsert _ _ _ hn
      · split at h
        · split at h
          · cases h; exact hn
          · simp only [update_customer_record] at h
            split at h
            · split at h <;> exact absurd h (by simp)
            · cases h; exact nodup_keys_upsert _ _ _ hn
        · cases h; exact hn

lemma retryGo_count_ge {α : Type} (op : Nat → CallOutcome α)
    (p : RemoteErr → Bool) :
    ∀ (fuel attempt : Nat), attempt ≤ (retryGo op p attempt fuel).2 := by
  intro fuel
  induction fuel with
  | zero =>
      intro attempt
      simp only [retryGo]
      cases op attempt <;> simp
  | succ fuel ih =>
      intro attempt
      simp only [retryGo]
      cases op attempt with
      | ok a => simp
      | raise e =>
          by_cases hp : p e = true
          · simp only [hp, if_true]
            exact Nat.le_trans (Nat.le_succ attempt) (ih (attempt + 1))
          · simp [hp]

lemma retryGo_exhaust {α : Type} (op : Nat → CallOutcome α)
    (p : RemoteErr → Bool) (errs : Nat → RemoteErr)
    (hop : ∀ n, op n = .raise (errs n)) (hp : ∀ n, p (errs n) = true) :
    ∀ (fuel attempt : Nat),
      retryGo op p attempt fuel = (.error (errs (attempt + fuel)), attempt + fuel) := by
  intro fuel
  induction fuel with
  | zero =>
      intro attempt
      simp [retryGo, hop attempt]
  | succ fuel ih =>
      intro attempt
      simp only [retryGo, hop attempt, hp attempt, if_true, ite_true]
      rw [ih (attempt + 1)]
      have h : attempt + 1 + fuel = attempt + (fuel + 1) := by omega
      rw [h]

lemma processList_nodup (records : List Record) (acc m : Customers)
    (h : processList acc records = .ok m)
    (hn : (acc.map Prod.fst).Nodup) : (m.map Prod.fst).Nodup := by
  induction records generalizing acc with
  | nil => simp only [processList] at h; cases h; exact hn
  | cons r rs ih =>
      simp only [processList] at h
      cases hstep : processStep acc r with
      | ok acc' =>
          rw [hstep] at h
          exact ih acc' h (step_nodup acc acc' r hstep hn)
      | error e => rw [hstep] at h; exact absurd h (by simp)

/-! ### Claim theorems -/

/-- C1 (counterexample): the claim says a later qualifying record for a
customer already present merges into the existing entry rather than
overwriting it, "for account records as well".  But a second account record
for the email `"a@x.com"` replaces the stored `{"id": "cus_1"}` wholesale
with `{"id": "cus_9"}`. -/
theorem account_record_overwrites :
    processRecords [acctRec] = .ok [("a@x.com", [("id", Val.s "cus_1")])] ∧
    processRecords [acctRec, acctRec2] =
      .ok [("a@x.com", [("id", Val.s "cus_9")])] :=
  ⟨rfl, rfl⟩

/-- C1 (amended): the aggregate is a dict, so each customer key holds at
most one top-level entry; a later account record for an email already
present overwrites that entry; and a later qualifying invoice,
subscription, or payment record for a customer already present does not
merge — processing fails with `KeyError` or `AttributeError`. -/
theorem aggregate_unique_keys_and_merge_behavior
    (records : List Record) (m acc : Customers) (r : Record) (entry : Entry)
    (hok : processRecords records = .ok m)
    (hq : qualifiesExisting r = true)
    (hmem : lookupD acc r.customer = some entry) :
    (m.map Prod.fst).Nodup ∧
    (∀ (acc2 : Customers) (r2 : Record),
      strContains r2.object "customer" = true →
      processStep acc2 r2 = .ok (upsert acc2 r2.email [("id", Val.s r2.id)])) ∧
    (processStep acc r = .error PyErr.keyError ∨
     processStep acc r = .error PyErr.attributeError) := by
  refine ⟨processList_nodup records [] m hok (by simp), ?_, ?_⟩
  · intro acc2 r2 h2
    simp [processStep, h2]
  · exact step_present_error acc r entry hq hmem

/-- Witness for `aggregate_unique_keys_and_merge_behavior` at the run
`[subRec]` followed by a second active subscription `subRec2`. -/
theorem aggregate_unique_keys_and_merge_behavior_witness :
    processRecords [subRec] = .ok subAcc ∧
    qualifiesExisting subRec2 = true ∧
    lookupD subAcc subRec2.customer = some subEntry ∧
    ((subAcc.map Prod.fst).Nodup ∧
     (∀ (acc2 : Customers) (r2 : Record),
       strContains r2.object "customer" = true →
       processStep acc2 r2 = .ok (upsert acc2 r2.email [("id", Val.s r2.id)])) ∧
     (processStep subAcc subRec2 = .error PyErr.keyError ∨
      processStep subAcc subRec2 = .error PyErr.attributeError)) :=
  ⟨rfl, rfl, rfl,
   aggregate_unique_keys_and_merge_behavior [subRec] subAcc subAcc subRec2
     subEntry rfl rfl rfl⟩

/-- C2: on the end-to-end scenario input the code does not return the
described aggregate at all — processing the active subscription finds
`"cus_1"` already present (created by the paid invoice with only a
`"products"` sub-key) and `customers["cus_1"]["subscriptions"]` raises
`KeyError`. -/
theorem scenario_raises_keyerror :
    processRecords scenarioRecords = .error PyErr.keyError := rfl

/-- C3: whenever a qualifying invoice, subscription, or payment record's
customer key is already present in the accumulating aggregate, aggregation
raises (`KeyError` when the existing entry lacks the sub-collection key,
`AttributeError` from calling `.extend` on the dict stored there) instead
of returning a result. -/
theorem existing_customer_raises
    (pre post : List Record) (r : Record) (acc : Customers) (entry : Entry)
    (hpre : processRecords pre = .ok acc)
    (hq : qualifiesExisting r = true)
    (hmem : lookupD acc r.customer = some entry) :
    processRecords (pre ++ r :: post) = .error PyErr.keyError ∨
    processRecords (pre ++ r :: post) = .error PyErr.attributeError := by
  have happ : processList [] (pre ++ r :: post) = processList acc (r :: post) :=
    processList_append pre (r :: post) [] acc hpre
  rcases step_present_error acc r entry hq hmem with h | h
  · left
    rw [processRecords, happ]
    simp [processList, h]
  · right
    rw [processRecords, happ]
    simp [processList, h]

/-- Witness for `existing_customer_raises`: two active subscriptions for
the customer `"cus_1"`. -/
theorem existing_customer_raises_witness :
    processRecords [subRec] = .ok subAcc ∧
    qualifiesExisting subRec2 = true ∧
    lookupD subAcc subRec2.customer = some subEntry ∧
    (processRecords ([subRec] ++ subRec2 :: []) = .error PyErr.keyError ∨
     processRecords ([subRec] ++ subRec2 :: []) = .error PyErr.attributeError) :=
  ⟨rfl, rfl, rfl,
   existing_customer_raises [subRec] [] subRec2 subAcc subEntry rfl rfl rfl⟩

/-- C4 (counterexample): the claim says the kind discriminator is tested
case-insensitively.  The record `upperAcctRec` with object `"Customer"`
contains `"customer"` case-insensitively, yet the code's case-sensitive
`in` test misses it and the record is skipped, leaving the aggregate
empty. -/
theorem dispatch_case_sensitive_counterexample :
    strContainsCI upperAcctRec.object "customer" = true ∧
    strContains upperAcctRec.object "customer" = false ∧
    processRecords [upperAcctRec] = .ok [] :=
  ⟨rfl, rfl, rfl⟩

/-- C4 (amended): dispatch tests the `"object"` discriminator by
case-sensitive substring containment against `"customer"`, `"invoice"`,
`"subscription"`, `"payment_intent"` in that priority order (a record
containing `"customer"` is routed to the account rule whatever else it
contains); a record matching none of the four is skipped, producing no
aggregate entry and no error. -/
theorem dispatch_priority_and_skip
    (acc accB : Customers) (rA rB : Record)
    (hA : strContains rA.object "customer" = true)
    (hB1 : strContains rB.object "customer" = false)
    (hB2 : strContains rB.object "invoice" = false)
    (hB3 : strContains rB.object "subscription" = false)
    (hB4 : strContains rB.object "payment_intent" = false) :
    processStep acc rA = .ok (upsert acc rA.email [("id", Val.s rA.id)]) ∧
    processStep accB rB = .ok accB := by
  constructor
  · simp [processStep, hA]
  · simp [processStep, hB1, hB2, hB3, hB4]

/-- Witness for `dispatch_priority_and_skip`: an object containing both
`"customer"` and `"invoice"` goes to the account rule, and
`"charge.refund"` is skipped. -/
theorem dispatch_priority_and_skip_witness :
    strContains priorityRec.object "customer" = true ∧
    strContains priorityRec.object "invoice" = true ∧
    strContains chargeRefundRec.object "customer" = false ∧
    strContains chargeRefundRec.object "invoice" = false ∧
    strContains chargeRefundRec.object "subscription" = false ∧
    strContains chargeRefundRec.object "payment_intent" = false ∧
    (processStep [] priorityRec =
       .ok (upsert [] priorityRec.email [("id", Val.s priorityRec.id)]) ∧
     processStep [] chargeRefundRec = .ok []) :=
  ⟨rfl, rfl, rfl, rfl, rfl, rfl,
   dispatch_priority_and_skip [] [] priorityRec chargeRefundRec
     rfl rfl rfl rfl rfl⟩

/-- C5: per-kind status filters: an invoice whose status does not contain
`"paid"`, a subscription whose status does not contain `"active"`, and a
payment whose status does not contain `"succeeded"` are skipped, leaving
the aggregate unchanged. -/
theorem status_filters_skip
    (accI accS accP : Customers) (rI rS rP : Record)
    (hI1 : strContains rI.object "customer" = false)
    (hI2 : strContains rI.object "invoice" = true)
    (hI3 : strContains rI.status "paid" = false)
    (hS1 : strContains rS.object "customer" = false)
    (hS2 : strContains rS.object "invoice" = false)
    (hS3 : strContains rS.object "subscription" = true)
    (hS4 : strContains rS.status "active" = false)
    (hP1 : strContains rP.object "customer" = false)
    (hP2 : strContains rP.object "invoice" = false)
    (hP3 : strContains rP.object "subscription" = false)
    (hP4 : strContains rP.object "payment_intent" = true)
    (hP5 : strContains rP.status "succeeded" = false) :
    processStep accI rI = .ok accI ∧
    processStep accS rS = .ok accS ∧
    processStep accP rP = .ok accP := by
  refine ⟨?_, ?_, ?_⟩
  · simp [processStep, hI1, hI2, hI3]
  · simp [processStep, hS1, hS2, hS3, hS4]
  · simp [processStep, hP1, hP2, hP3, hP4, hP5]

/-- Witness for `status_filters_skip`: an `"open"` invoice, a `"canceled"`
subscription, and a `"failed"` payment are all skipped. -/
theorem status_filters_skip_witness :
    strContains openInvRec.object "customer" = false ∧
    strContains openInvRec.object "invoice" = true ∧
    strContains openInvRec.status "paid" = false ∧
    strContains canceledSubRec.status "active" = false ∧
    strContains failedPayRec.status "succeeded" = false ∧
    (processStep [] openInvRec = .ok [] ∧
     processStep [] canceledSubRec = .ok [] ∧
     processStep [] failedPayRec = .ok []) :=
  ⟨rfl, rfl, rfl, rfl, rfl,
   status_filters_skip [] [] [] openInvRec canceledSubRec failedPayRec
     rfl rfl rfl rfl rfl rfl rfl rfl rfl rfl rfl rfl⟩

/-- C6: the status filters are substring tests, not equality tests: an
invoice whose status merely contains `"paid"`, a subscription whose status
contains `"active"`, and a payment whose status contains `"succeeded"`
pass their filters and (for a customer not yet present) are included in
the aggregate. -/
theorem status_filters_are_substring_tests
    (accI accS accP : Customers) (rI rS rP : Record)
    (hI1 : strContains rI.object "customer" = false)
    (hI2 : strContains rI.object "invoice" = true)
    (hI3 : strContains rI.status "paid" = true)
    (hI4 : lookupD accI rI.customer = none)
    (hS1 : strContains rS.object "customer" = false)
    (hS2 : strContains rS.object "invoice" = false)
    (hS3 : strContains rS.object "subscription" = true)
    (hS4 : strContains rS.status "active" = true)
    (hS5 : lookupD accS rS.customer = none)
    (hP1 : strContains rP.object "customer" = false)
    (hP2 : strContains rP.object "invoice" = false)
    (hP3 : strContains rP.object "subscription" = false)
    (hP4 : strContains rP.object "payment_intent" = true)
    (hP5 : strContains rP.status "succeeded" = true)
    (hP6 : lookupD accP rP.customer = none) :
    processStep accI rI =
      .ok (upsert accI rI.customer
            [("products", Val.obj (parse_invoice_lines rI.lines))]) ∧
    processStep accS rS =
      .ok (upsert accS rS.customer
            [("subscriptions", Val.obj [(rS.id, Val.s rS.status)])]) ∧
    processStep accP rP =
      .ok (upsert accP rP.customer
            [("payments", Val.obj [(rP.id, Val.s rP.status)])]) := by
  refine ⟨?_, ?_, ?_⟩
  · simp [processStep, update_customer_record, hI1, hI2, hI3, hI4]
  · simp [processStep, update_customer_record, hS1, hS2, hS3, hS4, hS5]
  · simp [processStep, update_customer_record, hP1, hP2, hP3, hP4, hP5, hP6]

/-- Witness for `status_filters_are_substring_tests`: statuses `"unpaid"`,
`"inactive"`, `"not_succeeded"` all pass their filters. -/
theorem status_filters_are_substring_tests_witness :
    strContains unpaidInvRec.status "paid" = true ∧
    strContains inactiveSubRec.status "active" = true ∧
    strContains oddPayRec.status "succeeded" = true ∧
    (processStep [] unpaidInvRec =
       .ok (upsert [] unpaidInvRec.customer
             [("products", Val.obj (parse_invoice_lines unpaidInvRec.lines))]) ∧
     processStep [] inactiveSubRec =
       .ok (upsert [] inactiveSubRec.customer
             [("subscriptions",
               Val.obj [(inactiveSubRec.id, Val.s inactiveSubRec.status)])]) ∧
     processStep [] oddPayRec =
       .ok (upsert [] oddPayRec.customer
             [("payments", Val.obj [(oddPayRec.id, Val.s oddPayRec.status)])])) :=
  ⟨rfl, rfl, rfl,
   status_filters_are_substring_tests [] [] [] unpaidInvRec inactiveSubRec
     oddPayRec rfl rfl rfl rfl rfl rfl rfl rfl rfl rfl rfl rfl rfl rfl rfl⟩

/-- C7: `_fetch_` never raises to its caller: for every outcome of the
try-block body, the method returns normally, and whenever the body raised
(unknown resource, authentication failure, connectivity failure, or any
other exception) the result is downgraded to the empty record list. -/
theorem fetch_never_raises (o : FetchOutcome) :
    (∃ l, fetchModel o = .ok l) ∧
    ((fetchBody o).isOk = false → fetchModel o = .ok []) := by
  cases o <;> simp [fetchModel, fetchBody, Except.isOk, Except.toBool]

/-- Witness for `fetch_never_raises` at an authentication failure. -/
theorem fetch_never_raises_witness :
    (fetchBody FetchOutcome.raiseAuthenticationError).isOk = false ∧
    fetchModel FetchOutcome.raiseAuthenticationError = .ok [] :=
  ⟨rfl, (fetch_never_raises FetchOutcome.raiseAuthenticationError).2 rfl⟩

/-- C8 (counterexample): the claim says a generic remote API error (not an
authentication failure) is retried.  But `retry_unless_exception_type
(StripeError)` designates the whole `StripeError` family as non-retryable,
so an operation raising a generic `StripeError` is invoked exactly once
and the error is re-raised immediately. -/
theorem generic_stripe_error_not_retried :
    RemoteErr.stripeGeneric ≠ RemoteErr.authentication ∧
    RemoteErr.stripeGeneric.isStripeError = true ∧
    retryExecute (fun _ => (CallOutcome.raise RemoteErr.stripeGeneric : CallOutcome Nat)) =
      (.error RemoteErr.stripeGeneric, 1) :=
  ⟨by decide, rfl, rfl⟩

/-- C8 (amended): the designated non-retryable family is `StripeError`
itself, which covers generic remote API errors as well as authentication
and connection errors: any operation raising a `StripeError` on the first
attempt is invoked exactly once and the error re-raised unchanged, while
an operation raising a non-`StripeError` on the first attempt is invoked
at least a second time. -/
theorem retry_short_circuits_stripe_family
    (op op' : Nat → CallOutcome Nat) (e e' : RemoteErr)
    (h1 : e.isStripeError = true) (h2 : op 1 = .raise e)
    (h3 : e'.isStripeError = false) (h4 : op' 1 = .raise e') :
    retryExecute op = (.error e, 1) ∧ 2 ≤ (retryExecute op').2 := by
  constructor
  · simp [retryExecute, retryGo, h2, h1]
  · have hgo : retryGo op' (fun err => ! err.isStripeError) 1 9 =
        retryGo op' (fun err => ! err.isStripeError) 2 8 := by
      simp [retryGo, h4, h3]
    rw [retryExecute, hgo]
    exact retryGo_count_ge op' (fun err => ! err.isStripeError) 8 2

/-- Witness for `retry_short_circuits_stripe_family`. -/
theorem retry_short_circuits_stripe_family_witness :
    RemoteErr.stripeGeneric.isStripeError = true ∧
    (RemoteErr.nonStripe 0).isStripeError = false ∧
    (retryExecute (fun _ => (CallOutcome.raise RemoteErr.stripeGeneric : CallOutcome Nat)) =
       (.error RemoteErr.stripeGeneric, 1) ∧
     2 ≤ (retryExecute (fun _ => (CallOutcome.raise (RemoteErr.nonStripe 0) : CallOutcome Nat))).2) :=
  ⟨rfl, rfl,
   retry_short_circuits_stripe_family
     (fun _ => CallOutcome.raise RemoteErr.stripeGeneric)
     (fun _ => CallOutcome.raise (RemoteErr.nonStripe 0))
     RemoteErr.stripeGeneric (RemoteErr.nonStripe 0) rfl rfl rfl rfl⟩

/-- C9: an operation that raises a retryable (non-`StripeError`) error on
every attempt is invoked exactly 10 times in total, and the 10th (last)
error is re-raised unchanged. -/
theorem retry_exhausts_after_ten_attempts
    (op : Nat → CallOutcome Nat) (errs : Nat → RemoteErr)
    (hop : ∀ n, op n = .raise (errs n))
    (hretry : ∀ n, (errs n).isStripeError = false) :
    retryExecute op = (.error (errs 10), 10) := by
  have h := retryGo_exhaust op (fun err => ! err.isStripeError) errs hop
    (fun n => by simp [hretry n]) 9 1
  simpa [retryExecute] using h

/-- Witness for `retry_exhausts_after_ten_attempts`: an operation raising
a distinct non-Stripe error per attempt terminates after 10 calls with the
10th error. -/
theorem retry_exhausts_after_ten_attempts_witness :
    retryExecute (fun n => (CallOutcome.raise (RemoteErr.nonStripe n) : CallOutcome Nat)) =
      (.error (RemoteErr.nonStripe 10), 10) :=
  retry_exhausts_after_ten_attempts
    (fun n => CallOutcome.raise (RemoteErr.nonStripe n))
    (fun n => RemoteErr.nonStripe n) (fun _ => rfl) (fun _ => rfl)

/-- C10: constructing the provider from connection parameters that lack the
required `api_key` credential fails at construction time: `__init__`
evaluates `connection_params["api_key"]` on the `exclude_none` dict and
raises `KeyError` before any fetch cycle proceeds. -/
theorem init_fails_without_api_key
    (cp : StripeConnectionParams) (h : cp.api_key = none) :
    providerInit cp = .error PyErr.keyError := by
  simp [providerInit, h]

/-- Witness for `init_fails_without_api_key` at the pydantic defaults
(`api_key = None`). -/
theorem init_fails_without_api_key_witness :
    ({} : StripeConnectionParams).api_key = none ∧
    providerInit {} = .error PyErr.keyError :=
  ⟨rfl, init_fails_without_api_key {} rfl⟩
